import Mathlib

/-!
Verification of the `cov-tools` command-line configuration layer
(`src/rust/cov-tools/src/cli.rs`) and of the spec-described filtering core.

The `Config` struct in `cli.rs` is a clap `Parser` with:
  * an `ArgGroup` "alignment" over `bam`/`cram`, `required(true)` and (by
    clap's default for groups) mutually exclusive;
  * `cram` carrying `requires = "fasta"`;
  * `fastq2` carrying `requires = "fastq1"`;
  * `suffix` with `default_value_t = String::from("filtered")`;
  * boolean flags `fasta_out` (`requires = "fasta"`) and `fastq_out`
    (`requires = "fastq1"`), both `default_value_t = false`;
  * plain optional arguments `list`, `fasta`, `fastq1`, `read_list`.

We embed a command line as the multiset of arguments the user actually
supplied (`CmdLine`), and clap's validation of this `Parser` as a function
`parseArgs : CmdLine → Except CliError Config`.  clap's `requires`
constraints fire exactly when the requiring argument is present on the
command line (a defaulted value does not trigger them); for the boolean
flags, presence on the command line and a `true` value coincide
(`ArgAction::SetTrue` with a `false` default).
-/

namespace CovTools

/-- An argument vector for the `cov-tools` binary, abstracted to which
options were supplied and with which values.  `Option.none` / `false`
means the corresponding option did not appear on the command line. -/
structure CmdLine where
  list : Option String
  bam : Option String
  cram : Option String
  fasta : Option String
  fastq1 : Option String
  fastq2 : Option String
  suffix : Option String
  fasta_out : Bool
  fastq_out : Bool
  read_list : Option String
deriving DecidableEq, Repr

/-- The parsed `Config` struct of `cli.rs`, after clap has applied
defaults (`suffix`, the boolean flags). -/
structure Config where
  list : Option String
  bam : Option String
  cram : Option String
  fasta : Option String
  fastq1 : Option String
  fastq2 : Option String
  suffix : String
  fasta_out : Bool
  fastq_out : Bool
  read_list : Option String
deriving DecidableEq, Repr

/-- The ways clap rejects an argument vector for this `Parser`. -/
inductive CliError where
  /-- Both members of the mutually exclusive `alignment` group given. -/
  | conflict : CliError
  /-- Neither member of the `required(true)` group `alignment` given. -/
  | missingGroup : CliError
  /-- An argument with a `requires = r` attribute was given without `r`;
  the two names are the requiring and the required argument. -/
  | missingRequired : String → String → CliError
deriving DecidableEq, Repr

/-- clap's validation and defaulting for the `Config` parser of `cli.rs`. -/
def parseArgs (c : CmdLine) : Except CliError Config :=
  if c.bam.isSome && c.cram.isSome then
    .error .conflict
  else if !c.bam.isSome && !c.cram.isSome then
    .error .missingGroup
  else if c.cram.isSome && !c.fasta.isSome then
    .error (.missingRequired "cram" "fasta")
  else if c.fastq2.isSome && !c.fastq1.isSome then
    .error (.missingRequired "fastq2" "fastq1")
  else if c.fasta_out && !c.fasta.isSome then
    .error (.missingRequired "fasta-out" "fasta")
  else if c.fastq_out && !c.fastq1.isSome then
    .error (.missingRequired "fastq-out" "fastq1")
  else
    .ok { list := c.list
          bam := c.bam
          cram := c.cram
          fasta := c.fasta
          fastq1 := c.fastq1
          fastq2 := c.fastq2
          suffix := c.suffix.getD "filtered"
          fasta_out := c.fasta_out
          fastq_out := c.fastq_out
          read_list := c.read_list }

/-- A command line supplying only a BAM path. -/
def bamOnly : CmdLine :=
  { list := none, bam := some "aln.bam", cram := none, fasta := none
    fastq1 := none, fastq2 := none, suffix := none
    fasta_out := false, fastq_out := false, read_list := none }

end CovTools

namespace CovTools

/-- **C1.** Exactly one of `bam` and `cram` is supplied in every accepted
command line: supplying neither is rejected, and supplying both is
rejected. -/
theorem alignment_group_exactly_one (c : CmdLine) :
    ((parseArgs c).isOk = true →
      (c.bam.isSome ∧ ¬ c.cram.isSome) ∨ (¬ c.bam.isSome ∧ c.cram.isSome)) ∧
    (¬ c.bam.isSome ∧ ¬ c.cram.isSome → (parseArgs c).isOk = false) ∧
    (c.bam.isSome ∧ c.cram.isSome → (parseArgs c).isOk = false) := by
  cases hb : c.bam <;> cases hc : c.cram <;>
    simp [parseArgs, hb, hc, Except.isOk, Except.toBool]

/-- Witness for `alignment_group_exactly_one` at the concrete command line
`bamOnly`. -/
theorem alignment_group_exactly_one_w :
    (CmdLine.bam bamOnly).isSome ∧ ¬ (CmdLine.cram bamOnly).isSome :=
  ((alignment_group_exactly_one bamOnly).1 (by decide)).resolve_right
    (by decide)

/-- The `Config` produced by accepting `bamOnly`. -/
def bamOnlyConfig : Config :=
  { list := none, bam := some "aln.bam", cram := none, fasta := none
    fastq1 := none, fastq2 := none, suffix := "filtered"
    fasta_out := false, fastq_out := false, read_list := none }

/-- A command line supplying a CRAM path but no FASTA reference. -/
def cramNoFasta : CmdLine :=
  { bamOnly with bam := none, cram := some "aln.cram" }

/-- A command line supplying `fastq2` without `fastq1` (plus a BAM path so
the alignment group is satisfied). -/
def fastq2Only : CmdLine :=
  { bamOnly with fastq2 := some "reads_2.fq" }

/-- A command line supplying `bam`, a FASTA path and the `fasta_out`
flag. -/
def bamFastaOut : CmdLine :=
  { bamOnly with fasta := some "ref.fa", fasta_out := true }

/-- A command line supplying `bam` and the `fasta_out` flag but no FASTA
path. -/
def bamFastaOutNoFasta : CmdLine :=
  { bamOnly with fasta_out := true }

/-- Inversion for acceptance: if `parseArgs` succeeds then every one of
clap's validation conditions held and the resulting `Config` copies the
command line's values, with the `suffix` default applied. -/
theorem parseArgs_ok_elim {c : CmdLine} {cfg : Config}
    (h : parseArgs c = .ok cfg) :
    ¬ (c.bam.isSome ∧ c.cram.isSome) ∧
    (c.bam.isSome ∨ c.cram.isSome) ∧
    (c.cram.isSome → c.fasta.isSome) ∧
    (c.fastq2.isSome → c.fastq1.isSome) ∧
    (c.fasta_out = true → c.fasta.isSome) ∧
    (c.fastq_out = true → c.fastq1.isSome) ∧
    cfg = { list := c.list, bam := c.bam, cram := c.cram, fasta := c.fasta
            fastq1 := c.fastq1, fastq2 := c.fastq2
            suffix := c.suffix.getD "filtered"
            fasta_out := c.fasta_out, fastq_out := c.fastq_out
            read_list := c.read_list } := by
  unfold parseArgs at h
  repeat' split at h
  all_goals simp_all [Option.isSome_iff_ne_none]
  all_goals tauto

/-- **C2.** A command line supplying `cram` without `fasta` is rejected;
every accepted configuration with `cram` set also has `fasta` set. -/
theorem cram_requires_fasta (c : CmdLine) (cfg : Config) :
    (c.cram.isSome ∧ ¬ c.fasta.isSome → (parseArgs c).isOk = false) ∧
    (parseArgs c = .ok cfg → c.cram.isSome → cfg.fasta.isSome) := by
  constructor
  · rintro ⟨h1, h2⟩
    cases hp : parseArgs c with
    | error e => rfl
    | ok cfg2 => exact absurd ((parseArgs_ok_elim hp).2.2.1 h1) h2
  · intro hp hc
    obtain ⟨-, -, hf, -, -, -, hcfg⟩ := parseArgs_ok_elim hp
    subst hcfg
    exact hf hc

/-- Witness for `cram_requires_fasta`: the concrete command line
`cramNoFasta` is rejected. -/
theorem cram_requires_fasta_w : (parseArgs cramNoFasta).isOk = false :=
  (cram_requires_fasta cramNoFasta bamOnlyConfig).1 (by decide)

/-- **C3.** A command line supplying `fastq2` without `fastq1` is
rejected; every accepted configuration with `fastq2` set also has
`fastq1` set. -/
theorem fastq2_requires_fastq1 (c : CmdLine) (cfg : Config) :
    (c.fastq2.isSome ∧ ¬ c.fastq1.isSome → (parseArgs c).isOk = false) ∧
    (parseArgs c = .ok cfg → c.fastq2.isSome → cfg.fastq1.isSome) := by
  constructor
  · rintro ⟨h1, h2⟩
    cases hp : parseArgs c with
    | error e => rfl
    | ok cfg2 => exact absurd ((parseArgs_ok_elim hp).2.2.2.1 h1) h2
  · intro hp hc
    obtain ⟨-, -, -, hf, -, -, hcfg⟩ := parseArgs_ok_elim hp
    subst hcfg
    exact hf hc

/-- Witness for `fastq2_requires_fastq1`: the concrete command line
`fastq2Only` is rejected. -/
theorem fastq2_requires_fastq1_w : (parseArgs fastq2Only).isOk = false :=
  (fastq2_requires_fastq1 fastq2Only bamOnlyConfig).1 (by decide)

/-- **C4** counterexample: the claim says a configuration omitting `list`
is rejected, but `cli.rs` declares `list` as a plain `Option<PathBuf>`
with no `required` attribute; the command line `bamOnly`, which omits
`list`, is accepted. -/
theorem list_not_required_cex :
    CmdLine.list bamOnly = none ∧ (parseArgs bamOnly).isOk = true := by
  decide

/-- **C4** amended: the `list` argument is optional; argument parsing
never rejects for a missing `list` and passes the (possibly absent) value
through unchanged into the configuration. -/
theorem list_optional_passthrough (c : CmdLine) (cfg : Config)
    (h : parseArgs c = .ok cfg) : cfg.list = c.list := by
  obtain ⟨-, -, -, -, -, -, hcfg⟩ := parseArgs_ok_elim h
  subst hcfg
  rfl

/-- Witness for `list_optional_passthrough` at `bamOnly`. -/
theorem list_optional_passthrough_w :
    Config.list bamOnlyConfig = CmdLine.list bamOnly :=
  list_optional_passthrough bamOnly bamOnlyConfig rfl

/-- **C5.** In every accepted configuration, `fasta_out = true` implies a
`fasta` path was supplied and `fastq_out = true` implies a `fastq1` path
was supplied; each flag equals its command-line presence, so it is
`false` whenever the flag was not given. -/
theorem out_flags_require_inputs (c : CmdLine) (cfg : Config)
    (h : parseArgs c = .ok cfg) :
    (cfg.fasta_out = true → cfg.fasta.isSome) ∧
    (cfg.fastq_out = true → cfg.fastq1.isSome) ∧
    cfg.fasta_out = c.fasta_out ∧ cfg.fastq_out = c.fastq_out := by
  obtain ⟨-, -, -, -, h1, h2, hcfg⟩ := parseArgs_ok_elim h
  subst hcfg
  exact ⟨h1, h2, rfl, rfl⟩

/-- Witness for `out_flags_require_inputs` at `bamFastaOut`. -/
theorem out_flags_require_inputs_w :
    (Config.fasta bamOnlyConfig).isSome ∨
      Config.fasta_out bamOnlyConfig = false := by
  rcases Bool.eq_false_or_eq_true (Config.fasta_out bamOnlyConfig) with h | h
  · exact Or.inl
      ((out_flags_require_inputs bamOnly bamOnlyConfig rfl).1 h)
  · exact Or.inr h

/-- **C6.** When the `suffix` argument is not supplied, the accepted
configuration's `suffix` field is the default string `"filtered"`. -/
theorem suffix_defaults_to_filtered (c : CmdLine) (cfg : Config)
    (h1 : c.suffix = none) (h2 : parseArgs c = .ok cfg) :
    cfg.suffix = "filtered" := by
  obtain ⟨-, -, -, -, -, -, hcfg⟩ := parseArgs_ok_elim h2
  subst hcfg
  simp [h1]

/-- Witness for `suffix_defaults_to_filtered` at `bamOnly`. -/
theorem suffix_defaults_to_filtered_w :
    Config.suffix bamOnlyConfig = "filtered" :=
  suffix_defaults_to_filtered bamOnly bamOnlyConfig rfl rfl

/-- **C9.** The command line supplying only a BAM path is accepted, with
`suffix` at its default, both output flags `false`, and every optional
path absent. -/
theorem bam_only_accepted : parseArgs bamOnly = .ok bamOnlyConfig := rfl

/-- **C10.** `fasta_out` is gated on the `fasta` input, not on the
alignment format: `bam` + `fasta` + `fasta_out` is accepted, while any
command line with `bam` and `fasta_out` but no `fasta` is rejected. -/
theorem fasta_out_gated_on_fasta_input :
    (parseArgs bamFastaOut).isOk = true ∧
    ∀ c : CmdLine, c.bam.isSome → c.fasta_out = true → c.fasta = none →
      (parseArgs c).isOk = false := by
  refine ⟨by decide, fun c hb hflag hfa => ?_⟩
  cases hp : parseArgs c with
  | error e => rfl
  | ok cfg =>
    have := (parseArgs_ok_elim hp).2.2.2.2.1 hflag
    rw [hfa] at this
    exact absurd this (by simp)

/-- Witness for `fasta_out_gated_on_fasta_input`: the concrete command
line `bamFastaOutNoFasta` is rejected. -/
theorem fasta_out_gated_on_fasta_input_w :
    (parseArgs bamFastaOutNoFasta).isOk = false :=
  fasta_out_gated_on_fasta_input.2 bamFastaOutNoFasta (by decide) rfl rfl

/-- Does `p` occur at the end of `s`?  Stated over the underlying
character lists so that it evaluates by kernel reduction. -/
def strEndsWith (s p : String) : Bool :=
  p.data.isSuffixOf s.data

/-- Remove the last `n` characters of `s`. -/
def strDropRight (s : String) (n : Nat) : String :=
  ⟨s.data.take (s.data.length - n)⟩

/-- Remove leading and trailing whitespace from `s`. -/
def strTrim (s : String) : String :=
  ⟨((s.data.dropWhile Char.isWhitespace).reverse.dropWhile
      Char.isWhitespace).reverse⟩

/-- Modelled from the spec: the filtering core (IdentifierSet,
AlignmentSource, FilterMatcher, OutputRouter, FilterPipeline) is absent
from the visible source; this is the spec's mate-suffix normalization,
which strips a trailing paired-read marker (`/1`, `/2`, `.1`, `.2`) so a
single list entry matches both mates. -/
def normalizeId (s : String) : String :=
  if strEndsWith s "/1" || strEndsWith s "/2" ||
      strEndsWith s ".1" || strEndsWith s ".2"
  then strDropRight s 2
  else s

/-- Modelled from the spec: `IdentifierSet.load` reads one identifier per
line, trims whitespace, skips blank lines, applies mate-suffix
normalization and de-duplicates silently. -/
def loadIdentifierSet (lines : List String) : List String :=
  (((lines.map strTrim).filter (fun l => l != "")).map
    normalizeId).dedup

/-- Modelled from the spec: `IdentifierSet.contains` normalizes the query
identifier with the same rule before lookup. -/
def idSetContains (set : List String) (id : String) : Bool :=
  decide (normalizeId id ∈ set)

/-- An alignment record as seen by the filter: identifier and sequence
bases (the fields the filter logic and FASTA re-serialization consume). -/
structure AlignmentRecord where
  id : String
  seq : String
deriving DecidableEq, Repr

/-- Modelled from the spec: `FilterMatcher.matches` is the pure predicate
`set.contains(record_id)`. -/
def filterMatches (set : List String) (id : String) : Bool :=
  idSetContains set id

/-- Modelled from the spec: the streaming phase keeps exactly the records
whose identifier matches the IdentifierSet, in input order. -/
def runAlignmentFilter (set : List String)
    (records : List AlignmentRecord) : List AlignmentRecord :=
  records.filter (fun r => filterMatches set r.id)

/-- Modelled from the spec: FASTA serialization of the matched records. -/
def renderFasta (records : List AlignmentRecord) : String :=
  String.join (records.map (fun r => ">" ++ r.id ++ "\n" ++ r.seq ++ "\n"))

/-- Modelled from the spec: the manifest of matched identifiers, one per
line, in the order they were written. -/
def renderManifest (records : List AlignmentRecord) : String :=
  String.join (records.map (fun r => r.id ++ "\n"))

/-- The byte content of the pipeline's output files. -/
structure PipelineOutput where
  fasta : String
  manifest : String
deriving DecidableEq, Repr

/-- Modelled from the spec: `FilterPipeline` builds the IdentifierSet from
the list file's lines, filters the alignment records against it and
renders the outputs. -/
def runPipeline (listLines : List String)
    (records : List AlignmentRecord) : PipelineOutput :=
  let s := loadIdentifierSet listLines
  let matched := runAlignmentFilter s records
  { fasta := renderFasta matched, manifest := renderManifest matched }

/-- **C7.** Every record the pipeline outputs has its normalized
identifier in the normalized identifier list and is itself a record of
the alignment input, so the output identifier set is a subset of both. -/
theorem output_ids_subset (L : List String) (A : List AlignmentRecord)
    (r : AlignmentRecord)
    (h : r ∈ runAlignmentFilter (loadIdentifierSet L) A) :
    normalizeId r.id ∈ loadIdentifierSet L ∧
    r.id ∈ A.map AlignmentRecord.id := by
  rw [runAlignmentFilter, List.mem_filter] at h
  obtain ⟨hA, hm⟩ := h
  exact ⟨of_decide_eq_true hm, List.mem_map_of_mem _ hA⟩

/-- Witness for `output_ids_subset` on a concrete list and alignment
file. -/
theorem output_ids_subset_w :
    normalizeId "read1" ∈ loadIdentifierSet ["read1/1"] ∧
    "read1" ∈ (List.map AlignmentRecord.id
      [⟨"read1", "ACGT"⟩, ⟨"read2", "GGCC"⟩]) :=
  output_ids_subset ["read1/1"] [⟨"read1", "ACGT"⟩, ⟨"read2", "GGCC"⟩]
    ⟨"read1", "ACGT"⟩ (by decide)

/-- **C8.** The pipeline is deterministic: two runs on the same list
lines and the same alignment records produce byte-identical outputs. -/
theorem pipeline_deterministic (L1 L2 : List String)
    (A1 A2 : List AlignmentRecord) (hL : L1 = L2) (hA : A1 = A2) :
    runPipeline L1 A1 = runPipeline L2 A2 := by
  subst hL
  subst hA
  rfl

/-- Witness for `pipeline_deterministic` on a concrete run. -/
theorem pipeline_deterministic_w :
    runPipeline ["read1"] [⟨"read1", "ACGT"⟩] =
      runPipeline ["read1"] [⟨"read1", "ACGT"⟩] :=
  pipeline_deterministic ["read1"] ["read1"] [⟨"read1", "ACGT"⟩]
    [⟨"read1", "ACGT"⟩] rfl rfl

end CovTools
